import Mathlib

/-!
Shallow embedding of the combat core of StickArcherSiege.

JS numbers are modelled as rationals (ℚ); `Math.round` as `jsRound`
(JavaScript rounds half away from zero upward: `Math.round x = ⌊x + 1/2⌋`).
Rendering-only state (sprites, colors, tweens, depths, scene handles) is
omitted; every field and branch that feeds the verified behaviour is kept.
-/

/-- JavaScript `Math.round`: floor of `q + 1/2`. Written with the executable
`Rat.floor` so that concrete values evaluate by `decide`. -/
def jsRound (q : ℚ) : ℤ := (q + 1/2).floor

namespace StickArcher

/-- The damage-relevant options of an `Arrow` (src/unnamed/part_005, `Arrow`
constructor defaults lines 1506-1519 merged with the caller's options).
Geometric and visual options (`color`, `width`, `height`, `speed`, `gravity`,
`lifetime`, `angle`, `speedMultiplier`) are omitted: no claim reads them. -/
structure ArrowOptions where
  isMaxPower : Bool
  baseDamage : ℚ
  powerLevel : ℚ
  damageMultiplier : ℚ
deriving DecidableEq

/-- `Arrow.calculateDamage` (part_005 lines 1571-1590): sequential mutation of
`damage`, then `Math.round`. -/
def Arrow.calculateDamage (o : ArrowOptions) : ℤ :=
  let damage := o.baseDamage
  let powerScaling : ℚ := if o.powerLevel < 50 then o.powerLevel / 50 else 1
  let damage := damage * powerScaling
  let damage := if o.isMaxPower then damage * (7/5 : ℚ) else damage
  let damage := damage * o.damageMultiplier
  jsRound damage

/-- An in-flight hero arrow: its merged options, the damage computed once at
construction (part_005 line 1525), and the `hasHit` resolution guard
(line 1544, initially `false`). -/
structure Arrow where
  options : ArrowOptions
  damage : ℤ
  hasHit : Bool
deriving DecidableEq

/-- The `Arrow` constructor (part_005 lines 1500-1565) restricted to its
damage-relevant state: merge options (the caller passes all four fields, so
the merge is the caller's record), compute `damage` once, start un-hit. -/
def Arrow.mkArrow (o : ArrowOptions) : Arrow :=
  { options := o, damage := Arrow.calculateDamage o, hasHit := false }

/-- `Arrow.createFromShot` (part_005 lines 1728-1742): every numeric option is
defaulted through JavaScript `||`, so a zero value is replaced by the default
(`baseDamage || 10`, `powerLevel || 100`, `damageMultiplier || 1.0`);
`isMaxPower || false` is the identity on booleans. -/
def Arrow.createFromShot (options : ArrowOptions) : Arrow :=
  Arrow.mkArrow
    { isMaxPower := options.isMaxPower
      baseDamage := if options.baseDamage = 0 then 10 else options.baseDamage
      powerLevel := if options.powerLevel = 0 then 100 else options.powerLevel
      damageMultiplier :=
        if options.damageMultiplier = 0 then 1 else options.damageMultiplier }

/-- Hero state relevant to charging, shooting and damage
(part_005: `baseDamage = 15`, `damageMultiplier = 1.0` at construction,
lines 437-438; `isCharging`/`powerLevel` drive the charge mechanic). -/
structure Hero where
  isCharging : Bool
  powerLevel : ℚ
  baseDamage : ℚ
  damageMultiplier : ℚ
  health : ℚ
  isAlive : Bool
deriving DecidableEq

/-- `Hero.shootWithPower` (part_005 lines 711-740): flags max power at
`power >= 99` and builds the arrow through `Arrow.createFromShot` with the
hero's `baseDamage` and `damageMultiplier`. The source wraps the construction
in try/catch (returning null on a rendering exception); construction in the
model is total, so the catch branch has no counterpart. -/
def Hero.shootWithPower (h : Hero) (power : ℚ) : Arrow :=
  let isMaxPower := decide (99 ≤ power)
  Arrow.createFromShot
    { isMaxPower := isMaxPower
      baseDamage := h.baseDamage
      powerLevel := power
      damageMultiplier := h.damageMultiplier }

/-- `Hero.releaseArrow` (part_005 lines 683-702): `null` when not charging;
otherwise charging ends, and below power 34 no arrow is produced. -/
def Hero.releaseArrow (h : Hero) : Hero × Option Arrow :=
  if ¬h.isCharging then (h, none)
  else
    let finalPower := h.powerLevel
    let h' := { h with isCharging := false }
    if finalPower < 34 then (h', none)
    else (h', some (h'.shootWithPower finalPower))

/-- `Hero.takeDamage` (part_005 lines 767-830): no-op on non-positive damage or
when dead; health is clamped at 0; death flips `isAlive` once health is 0. -/
def Hero.takeDamage (h : Hero) (amount : ℚ) : Hero :=
  if amount ≤ 0 ∨ ¬h.isAlive then h
  else
    let health := max 0 (h.health - (jsRound amount : ℚ))
    if health ≤ 0 then { h with health := 0, isAlive := false }
    else { h with health := health }

/-- A base: a stationary health pool (part_005, `Base`, line 152 on). Only the
state read by `takeDamage`/`onDestroyed` is kept. -/
structure Base where
  health : ℚ
  isPlayerBase : Bool
deriving DecidableEq

/-- `Base.takeDamage` (part_005 lines 270-302): no-op on non-positive amounts;
`health = max(0, health - round(amount))`; `onDestroyed` (lines 307-334, which
invokes the side-specific scene callback) is called whenever the resulting
health is `≤ 0` — there is no re-entry guard in the source. The returned
boolean records whether `onDestroyed` fired on this call. -/
def Base.takeDamage (b : Base) (amount : ℚ) : Base × Bool :=
  if amount ≤ 0 then (b, false)
  else
    let damageAmount := jsRound amount
    let health := max 0 (b.health - (damageAmount : ℚ))
    let b' := { b with health := health }
    if health ≤ 0 then (b', true) else (b', false)

/-- Troop categories (part_006, `TROOP_CONFIGS` keys). -/
inductive Category where
  | Light
  | Heavy
  | Ranged
deriving DecidableEq

/-- The `DAMAGE_MULTIPLIERS` table (part_006 lines 82-98), attacker first. -/
def DAMAGE_MULTIPLIERS : Category → Category → ℚ
  | .Light, .Light => 1
  | .Light, .Heavy => 7/10
  | .Light, .Ranged => 6/5
  | .Heavy, .Light => 13/10
  | .Heavy, .Heavy => 1
  | .Heavy, .Ranged => 3/2
  | .Ranged, .Light => 3/2
  | .Ranged, .Heavy => 4/5
  | .Ranged, .Ranged => 1

/-- A troop, restricted to the state read by damage resolution
(part_006 constructor, lines 117-187). -/
structure Troop where
  health : ℚ
  isEnemy : Bool
deriving DecidableEq

/-- The observable outcome of one `Troop.takeDamage` call: the updated troop,
whether `destroy()` was invoked, and whether `scene.awardGoldForKill` fired. -/
structure TroopDamageResult where
  troop : Troop
  destroyFired : Bool
  awardGoldFired : Bool
deriving DecidableEq

/-- `Troop.takeDamage` (part_006 lines 373-407): no-op on non-positive damage;
health is decremented by the rounded damage with no clamp at 0; when the
resulting health is `≤ 0` the troop is destroyed and, if it is an enemy troop,
the kill gold is awarded. -/
def Troop.takeDamage (t : Troop) (damage : ℚ) : TroopDamageResult :=
  if damage ≤ 0 then ⟨t, false, false⟩
  else
    let damageAmount := jsRound damage
    let t' := { t with health := t.health - (damageAmount : ℚ) }
    if t'.health ≤ 0 then ⟨t', true, t.isEnemy⟩
    else ⟨t', false, false⟩

/-- `Troop.calculateDamage` (part_006 lines 660-676): the multiplier is applied
only when the table lookup is truthy (all nine entries are nonzero, so for
troop-vs-troop combat it always applies); the result is rounded. -/
def Troop.calculateDamage (attackDamage : ℚ) (attacker target : Category) : ℤ :=
  let m := DAMAGE_MULTIPLIERS attacker target
  let damage := if m ≠ 0 then attackDamage * m else attackDamage
  jsRound damage

/-- `Troop.isTargetInAttackRange` (part_006 lines 683-717), positions and
stats passed explicitly. `verticalAttackFactor` is `Option`al, defaulted to
`0.5` exactly as `config.verticalAttackFactor !== undefined ? ... : 0.5`. -/
def Troop.isTargetInAttackRange (category : Category) (attackRange troopHeight : ℚ)
    (verticalAttackFactor : Option ℚ) (selfX selfY targetX targetY : ℚ) : Bool :=
  let horizontalDistance := |selfX - targetX|
  if horizontalDistance > attackRange then false
  else if category = Category.Ranged then true
  else
    let verticalFactor := verticalAttackFactor.getD (1/2)
    let maxVerticalDistance := troopHeight * verticalFactor
    let verticalDistance := |selfY - targetY|
    decide (verticalDistance ≤ maxVerticalDistance)

/-- The sub-projectile spawned by `Troop.createRangedAttack`
(part_006 lines 474-602); only its liveness is behaviour-relevant. -/
structure RangedProjectile where
  active : Bool
deriving DecidableEq

/-- The overlap callback registered in `Troop.createRangedAttack`
(part_006 lines 559-574, and identically 578-594 for a base hitbox): it applies
`target.takeDamage(damage)` unconditionally — it consults no `hasHit` flag —
then destroys the projectile. -/
def Troop.rangedOverlapHit (damage : ℚ) (p : RangedProjectile) (target : Troop) :
    RangedProjectile × Troop :=
  let target' := (target.takeDamage damage).troop
  ({ p with active := false }, target')

/-- `Arrow.hitEnemy` (part_005 lines 1685-1715): guarded by `hasHit`; on first
delivery the flag is set, `this.damage || 10` is applied to the troop, and the
arrow is scheduled for destruction. Later deliveries are no-ops. -/
def Arrow.hitEnemy (a : Arrow) (t : Troop) : Arrow × Troop :=
  if a.hasHit then (a, t)
  else
    let a' := { a with hasHit := true }
    let damage : ℚ := if a.damage = 0 then 10 else (a.damage : ℚ)
    (a', (t.takeDamage damage).troop)

/-- The source of an `addGold` call (part_002 line 195): only `'passive'`
income is scaled by the difficulty resource multiplier. -/
inductive GoldSource where
  | passive
  | other
deriving DecidableEq

/-- The gold-relevant state of `GameManager` (part_002: `gold = 100` at
construction; `resourceMultiplier` comes from `getDifficultyParameters`,
1.0 / 0.8 / 0.6 by difficulty). -/
structure GameManager where
  gold : ℚ
  resourceMultiplier : ℚ
deriving DecidableEq

/-- `GameManager.addGold` (part_002 lines 195-205): passive income is floored
after scaling; all other sources are added unscaled. -/
def GameManager.addGold (gm : GameManager) (amount : ℚ) (source : GoldSource) :
    GameManager :=
  let adjustedAmount : ℚ :=
    if source = GoldSource.passive then ((amount * gm.resourceMultiplier).floor : ℚ)
    else amount
  { gm with gold := gm.gold + adjustedAmount }

/-- `GameManager.spendGold` (part_002 lines 213-222): check-then-deduct,
returning whether the transaction succeeded. -/
def GameManager.spendGold (gm : GameManager) (amount : ℚ) : GameManager × Bool :=
  if gm.gold ≥ amount then ({ gm with gold := gm.gold - amount }, true)
  else (gm, false)

/-- One call in a gold-mutation history. -/
inductive GoldOp where
  | spend (amount : ℚ)
  | add (amount : ℚ) (source : GoldSource)

/-- Execute one gold operation. -/
def GameManager.applyGoldOp (gm : GameManager) : GoldOp → GameManager
  | .spend amount => (gm.spendGold amount).1
  | .add amount source => gm.addGold amount source

/-- Execute a whole history of spend/add calls. -/
def GameManager.applyGoldOps (gm : GameManager) (ops : List GoldOp) : GameManager :=
  ops.foldl GameManager.applyGoldOp gm

/-- An element of `GameScene.arrows` as `cleanupArrows`
(src/src/scenes/GameScene.js lines 274-311) reads it: liveness, position, a
`creationTime` property, plus the resolution flag (which that code never
reads). The property is an `Option` because a JavaScript property read can
yield `undefined`: the scene tracks SPRITES — the `Arrow` constructor
registers `this.sprite` (part_005 line 1563) and copies `arrowInstance`,
`isMaxPower` and `damage` onto it (lines 1535-1541) but never `creationTime`,
which is set on the `Arrow` instance only (line 1553) — so on every sprite the
scene actually tracks the property is absent (`none`). -/
structure SceneArrow where
  active : Bool
  x : ℚ
  y : ℚ
  creationTime : Option ℤ
  hasHit : Bool
deriving DecidableEq

/-- The sprite exactly as the `Arrow` constructor registers it with
`GameScene.addArrowToScene` (part_005 lines 1528-1563, GameScene.js lines
191-194): active, at the spawn position, un-hit, and WITHOUT a
`creationTime` property. -/
def Arrow.registeredSprite (x y : ℚ) : SceneArrow :=
  { active := true, x := x, y := y, creationTime := none, hasHit := false }

/-- World bounds used by the out-of-bounds check. -/
structure WorldBounds where
  width : ℚ
  height : ℚ
deriving DecidableEq

/-- The filter predicate inside `GameScene.cleanupArrows`: `true` keeps the
arrow, `false` removes (and, for active arrows, destroys) it. The age branch
computes `Date.now() - arrow.creationTime`: when the property is absent
(`none` — the case for every sprite the scene tracks) the subtraction is
`NaN`, and `NaN > 10000` is `false` in JavaScript, so the arrow is kept. -/
def GameScene.cleanupKeep (wb : WorldBounds) (now : ℤ) (arrow : SceneArrow) : Bool :=
  if ¬arrow.active then false
  else
    let margin : ℚ := 50
    let outOfBounds :=
      arrow.x < -margin ∨ arrow.y < -margin ∨
        arrow.x > wb.width + margin ∨ arrow.y > wb.height + margin
    if outOfBounds then false
    else
      match arrow.creationTime with
      | some created => if now - created > 10000 then false else true
      | none => true

/-- `GameScene.cleanupArrows` (GameScene.js lines 274-311): early return on an
empty collection, else filter with `cleanupKeep`; `now` is `Date.now()`. -/
def GameScene.cleanupArrows (wb : WorldBounds) (now : ℤ) (arrows : List SceneArrow) :
    List SceneArrow :=
  if arrows.isEmpty then arrows
  else arrows.filter (GameScene.cleanupKeep wb now)

/-- The 3×3 matchup table exactly as the specification words it: same
category 1.0, Ranged→Light 1.5, Heavy→Ranged 1.5, Light→Heavy 0.7,
Heavy→Light 1.3, Light→Ranged 1.2, Ranged→Heavy 0.8 (refinement comparison
definition, written from the spec's words, not from the source). -/
def specMatchupMultiplier : Category → Category → ℚ
  | .Light, .Light => 1
  | .Heavy, .Heavy => 1
  | .Ranged, .Ranged => 1
  | .Ranged, .Light => 3/2
  | .Heavy, .Ranged => 3/2
  | .Light, .Heavy => 7/10
  | .Heavy, .Light => 13/10
  | .Light, .Ranged => 6/5
  | .Ranged, .Heavy => 4/5

/-! Helper lemmas shared by the claim theorems. -/

/-- `Rat.floor` is the mathematical floor. -/
theorem ratFloor_eq_intFloor (q : ℚ) : q.floor = ⌊q⌋ := by
  rw [Rat.floor_def', Rat.floor_def]

/-- `jsRound` agrees with the mathematical `⌊q + 1/2⌋`. -/
theorem jsRound_eq (q : ℚ) : jsRound q = ⌊q + 1/2⌋ := by
  rw [jsRound, ratFloor_eq_intFloor]

/-- For positive damage the troop returned by `Troop.takeDamage` always has
`health - round(damage)`, whether or not the destruction branch runs. -/
theorem Troop.takeDamage_troop (t : Troop) (damage : ℚ) (hd : 0 < damage) :
    (t.takeDamage damage).troop =
      { t with health := t.health - (jsRound damage : ℚ) } := by
  simp only [Troop.takeDamage, if_neg (not_le.mpr hd)]
  split <;> rfl

/-- Claim C1: For every projectile created through the hero's shot path, the
damage stored at creation equals
`round(baseDamage × powerScaling × maxPowerBonus × damageMultiplier)`, with
`powerScaling = powerLevel/50` below 50 and `1` otherwise, and
`maxPowerBonus = 1.4` exactly when `powerLevel ≥ 99`; in particular for
`powerLevel ∈ [50, 99)` the damage is `round(baseDamage × damageMultiplier)`.
The hero's shot path only fires with positive power (release needs ≥ 34) and
with the hero's nonzero `baseDamage`/`damageMultiplier`, under which the `||`
defaulting in `createFromShot` is the identity. -/
theorem hero_shot_damage_formula (h : Hero) (power : ℚ) (hpow : 0 < power)
    (hbase : h.baseDamage ≠ 0) (hmult : h.damageMultiplier ≠ 0) :
    (h.shootWithPower power).damage =
      jsRound (h.baseDamage * (if power < 50 then power / 50 else 1) *
        (if 99 ≤ power then (7/5 : ℚ) else 1) * h.damageMultiplier) ∧
    (50 ≤ power → power < 99 →
      (h.shootWithPower power).damage = jsRound (h.baseDamage * h.damageMultiplier)) := by
  have hp0 : power ≠ 0 := ne_of_gt hpow
  have hcore : (h.shootWithPower power).damage =
      jsRound (h.baseDamage * (if power < 50 then power / 50 else 1) *
        (if 99 ≤ power then (7/5 : ℚ) else 1) * h.damageMultiplier) := by
    unfold Hero.shootWithPower Arrow.createFromShot Arrow.mkArrow Arrow.calculateDamage
    simp only [if_neg hp0, if_neg hbase, if_neg hmult, decide_eq_true_eq]
    split_ifs <;> first | rfl | exact congrArg jsRound (by ring)
  refine ⟨hcore, fun h50 h99 => ?_⟩
  rw [hcore, if_neg (not_lt.mpr h50), if_neg (not_le.mpr h99)]
  exact congrArg jsRound (by ring)

/-- Witness for C1 at `power = 70`, `baseDamage = 15`, `damageMultiplier = 1`
(the hero's construction-time values): both conjuncts instantiated. -/
theorem hero_shot_damage_formula_witness :
    ((Hero.mk false 0 15 1 100 true).shootWithPower 70).damage =
      jsRound (15 * (if (70:ℚ) < 50 then 70 / 50 else 1) *
        (if (99:ℚ) ≤ 70 then (7/5 : ℚ) else 1) * 1) ∧
    ((50:ℚ) ≤ 70 → (70:ℚ) < 99 →
      ((Hero.mk false 0 15 1 100 true).shootWithPower 70).damage = jsRound (15 * 1)) :=
  hero_shot_damage_formula (Hero.mk false 0 15 1 100 true) 70
    (by decide) (by decide) (by decide)

/-- Claim C6: Releasing a charge with `powerLevel < 34` never produces a
projectile (charging ends, `null` is returned); with `powerLevel ≥ 34` exactly
one projectile is produced, carrying that power level and flagged max-power
exactly when `powerLevel ≥ 99`. -/
theorem releaseArrow_threshold (h : Hero) (hch : h.isCharging = true) :
    (h.powerLevel < 34 →
      h.releaseArrow = ({ h with isCharging := false }, none)) ∧
    (34 ≤ h.powerLevel →
      h.releaseArrow = ({ h with isCharging := false },
        some (Hero.shootWithPower { h with isCharging := false } h.powerLevel)) ∧
      (Hero.shootWithPower { h with isCharging := false } h.powerLevel).options.powerLevel
          = h.powerLevel ∧
      ((Hero.shootWithPower { h with isCharging := false } h.powerLevel).options.isMaxPower
          = true ↔ 99 ≤ h.powerLevel)) := by
  constructor
  · intro hlt
    unfold Hero.releaseArrow
    rw [if_neg (by simp [hch]), if_pos hlt]
  · intro hge
    have hne : h.powerLevel ≠ 0 := by
      intro h0
      rw [h0] at hge
      norm_num at hge
    refine ⟨?_, ?_, ?_⟩
    · unfold Hero.releaseArrow
      rw [if_neg (by simp [hch]), if_neg (not_lt.mpr hge)]
    · unfold Hero.shootWithPower Arrow.createFromShot Arrow.mkArrow
      simp [hne]
    · unfold Hero.shootWithPower Arrow.createFromShot Arrow.mkArrow
      simp

/-- Witness for C6 at a charging hero with `powerLevel = 20` (below the
34 threshold): no arrow, charging ended. -/
theorem releaseArrow_threshold_witness :
    (Hero.mk true 20 15 1 100 true).releaseArrow =
      ({ Hero.mk true 20 15 1 100 true with isCharging := false }, none) :=
  (releaseArrow_threshold (Hero.mk true 20 15 1 100 true) (by decide)).1 (by decide)

/-- Claim C9: `Arrow.createFromShot` silently replaces falsy option values via
`||`: `powerLevel = 0` becomes 100, `baseDamage = 0` becomes 10,
`damageMultiplier = 0` becomes 1.0 — so a zero-power, zero-damage shot deals
the full default damage `round(10 × 1 × 1 × 1) = 10` instead of 0. -/
theorem createFromShot_zero_coerced_to_defaults :
    (Arrow.createFromShot
        { isMaxPower := false, baseDamage := 0, powerLevel := 0, damageMultiplier := 0 }).options =
      { isMaxPower := false, baseDamage := 10, powerLevel := 100, damageMultiplier := 1 } ∧
    (Arrow.createFromShot
        { isMaxPower := false, baseDamage := 0, powerLevel := 0, damageMultiplier := 0 }).damage = 10 := by
  constructor
  · rfl
  · show Arrow.calculateDamage _ = 10
    rw [Arrow.calculateDamage, jsRound_eq]
    norm_num

/-- Claim C2 (code behaviour at the failing input): `Base.takeDamage` has no
re-entry guard. A base at health 10 hit for 10 reaches health 0 and fires the
destruction callback; a further `takeDamage 5` keeps health clamped at 0 but
fires the destruction callback AGAIN, contradicting the claimed exactly-once
firing. -/
theorem base_destruction_callback_refires :
    (Base.takeDamage ⟨10, false⟩ 10).1.health = 0 ∧
    (Base.takeDamage ⟨10, false⟩ 10).2 = true ∧
    (Base.takeDamage (Base.takeDamage ⟨10, false⟩ 10).1 5).1.health = 0 ∧
    (Base.takeDamage (Base.takeDamage ⟨10, false⟩ 10).1 5).2 = true := by
  have h1 : Base.takeDamage ⟨10, false⟩ 10 = (⟨0, false⟩, true) := by
    rw [Base.takeDamage]
    rw [if_neg (by norm_num), jsRound_eq]
    norm_num
  have h2 : Base.takeDamage (⟨0, false⟩ : Base) 5 = (⟨0, false⟩, true) := by
    rw [Base.takeDamage]
    rw [if_neg (by norm_num), jsRound_eq]
    norm_num
  rw [h1]
  rw [h2]
  exact ⟨rfl, rfl, rfl, rfl⟩

/-- Claim C3 counterexample: the overlap handler of a ranged troop's
sub-projectile is NOT idempotent. With damage 10 against a troop at health 25,
the first delivery leaves health 15; delivering the same overlap again (the
projectile already destroyed) applies the damage a second time, leaving
health 5 — a second delivery is not a no-op, refuting the claim for ranged
sub-projectiles. -/
theorem ranged_overlap_second_delivery_not_noop :
    (Troop.rangedOverlapHit 10 ⟨true⟩ ⟨25, false⟩).2.health = 15 ∧
    (Troop.rangedOverlapHit 10 ⟨false⟩
        (Troop.rangedOverlapHit 10 ⟨true⟩ ⟨25, false⟩).2).2.health = 5 := by
  have ht : ∀ t : Troop, (Troop.takeDamage t 10).troop =
      { t with health := t.health - 10 } := by
    intro t
    rw [Troop.takeDamage_troop t 10 (by norm_num)]
    have : jsRound 10 = 10 := by rw [jsRound_eq]; norm_num
    rw [this]
    norm_num
  constructor
  · show (Troop.takeDamage ⟨25, false⟩ 10).troop.health = 15
    rw [ht]
    norm_num
  · show (Troop.takeDamage (Troop.takeDamage ⟨25, false⟩ 10).troop 10).troop.health = 5
    rw [ht, ht]
    norm_num

/-- Claim C3 amended: hero arrows resolve idempotently — after the first
`hitEnemy` delivery the `hasHit` flag is set and every later delivery of the
same overlap is a no-op — but the ranged sub-projectile's overlap handler has
no guard: every delivery subtracts `round(damage)` from the target again, so
n deliveries change health by n applications. -/
theorem hit_resolution_guard_status (a : Arrow) (t target : Troop) (damage : ℚ)
    (p p' : RangedProjectile) (hd : 0 < damage) :
    (Arrow.hitEnemy (Arrow.hitEnemy a t).1 (Arrow.hitEnemy a t).2 = Arrow.hitEnemy a t) ∧
    ((Troop.rangedOverlapHit damage p target).2.health
        = target.health - (jsRound damage : ℚ)) ∧
    ((Troop.rangedOverlapHit damage p' (Troop.rangedOverlapHit damage p target).2).2.health
        = target.health - 2 * (jsRound damage : ℚ)) := by
  refine ⟨?_, ?_, ?_⟩
  · by_cases hh : a.hasHit
    · simp [Arrow.hitEnemy, hh]
    · have h1 : (Arrow.hitEnemy a t).1.hasHit = true := by
        simp [Arrow.hitEnemy, hh]
      rw [Arrow.hitEnemy]
      rw [if_pos h1]
  · show (Troop.takeDamage target damage).troop.health = _
    rw [Troop.takeDamage_troop target damage hd]
  · show (Troop.takeDamage (Troop.takeDamage target damage).troop damage).troop.health = _
    rw [Troop.takeDamage_troop _ damage hd, Troop.takeDamage_troop target damage hd]
    show target.health - (jsRound damage : ℚ) - (jsRound damage : ℚ) = _
    ring

/-- Witness for the amended C3 at damage 10, a fresh arrow, and troops at
health 25. -/
theorem hit_resolution_guard_status_witness :
    (Arrow.hitEnemy
        (Arrow.hitEnemy (Arrow.mkArrow ⟨false, 15, 100, 1⟩) ⟨25, true⟩).1
        (Arrow.hitEnemy (Arrow.mkArrow ⟨false, 15, 100, 1⟩) ⟨25, true⟩).2
      = Arrow.hitEnemy (Arrow.mkArrow ⟨false, 15, 100, 1⟩) ⟨25, true⟩) ∧
    ((Troop.rangedOverlapHit 10 ⟨true⟩ ⟨25, false⟩).2.health
        = (25 : ℚ) - (jsRound 10 : ℚ)) ∧
    ((Troop.rangedOverlapHit 10 ⟨false⟩ (Troop.rangedOverlapHit 10 ⟨true⟩ ⟨25, false⟩).2).2.health
        = (25 : ℚ) - 2 * (jsRound 10 : ℚ)) :=
  hit_resolution_guard_status (Arrow.mkArrow ⟨false, 15, 100, 1⟩) ⟨25, true⟩ ⟨25, false⟩
    10 ⟨true⟩ ⟨false⟩ (by decide)

/-- Claim C10: `Troop.takeDamage` subtracts the rounded damage with no clamp,
so health can be strictly negative at the instant of destruction (health 5 hit
for 8 leaves −3); the troop is destroyed, and the kill reward credited when it
is hostile to the player, exactly when the resulting health is ≤ 0. In
contrast `Base.takeDamage` and `Hero.takeDamage` clamp health with
`max(0, health − round(amount))`. -/
theorem troop_health_unclamped (t : Troop) (damage : ℚ) (b : Base) (hero : Hero)
    (amount : ℚ) (hd : 0 < damage) (ha : 0 < amount) (hal : hero.isAlive = true) :
    ((t.takeDamage damage).troop.health = t.health - (jsRound damage : ℚ)) ∧
    ((t.takeDamage damage).destroyFired = true ↔
        t.health - (jsRound damage : ℚ) ≤ 0) ∧
    ((t.takeDamage damage).awardGoldFired = true ↔
        (t.health - (jsRound damage : ℚ) ≤ 0 ∧ t.isEnemy = true)) ∧
    ((b.takeDamage amount).1.health = max 0 (b.health - (jsRound amount : ℚ))) ∧
    ((hero.takeDamage amount).health = max 0 (hero.health - (jsRound amount : ℚ))) ∧
    ((Troop.takeDamage ⟨5, true⟩ 8).troop.health = -3 ∧
      (Troop.takeDamage ⟨5, true⟩ 8).destroyFired = true ∧
      (Troop.takeDamage ⟨5, true⟩ 8).awardGoldFired = true) := by
  have hnle : ¬damage ≤ 0 := not_le.mpr hd
  have hKey : ∀ (u : Troop) (d : ℚ), 0 < d →
      u.takeDamage d =
        if u.health - (jsRound d : ℚ) ≤ 0 then
          ⟨{ u with health := u.health - (jsRound d : ℚ) }, true, u.isEnemy⟩
        else ⟨{ u with health := u.health - (jsRound d : ℚ) }, false, false⟩ := by
    intro u d hd'
    simp only [Troop.takeDamage, if_neg (not_le.mpr hd')]
  refine ⟨?_, ?_, ?_, ?_, ?_, ?_, ?_, ?_⟩
  · rw [Troop.takeDamage_troop t damage hd]
  · rw [hKey t damage hd]
    by_cases hle : t.health - (jsRound damage : ℚ) ≤ 0
    · simp [hle]
    · simp [hle]
  · rw [hKey t damage hd]
    by_cases hle : t.health - (jsRound damage : ℚ) ≤ 0
    · by_cases he : t.isEnemy <;> simp [hle, he]
    · simp [hle]
  · simp only [Base.takeDamage, if_neg (not_le.mpr ha)]
    split <;> rfl
  · simp only [Hero.takeDamage]
    rw [if_neg (by
      push_neg
      exact ⟨ha, by simp [hal]⟩)]
    by_cases hle : max 0 (hero.health - (jsRound amount : ℚ)) ≤ 0
    · rw [if_pos hle]
      have : max 0 (hero.health - (jsRound amount : ℚ)) = 0 :=
        le_antisymm hle (le_max_left _ _)
      rw [this]
    · rw [if_neg hle]
  · have h8 : jsRound 8 = 8 := by rw [jsRound_eq]; norm_num
    rw [Troop.takeDamage_troop _ 8 (by norm_num), h8]
    norm_num
  · rw [hKey ⟨5, true⟩ 8 (by norm_num)]
    have h8 : jsRound 8 = 8 := by rw [jsRound_eq]; norm_num
    rw [h8]
    norm_num
  · rw [hKey ⟨5, true⟩ 8 (by norm_num)]
    have h8 : jsRound 8 = 8 := by rw [jsRound_eq]; norm_num
    rw [h8]
    norm_num

/-- Witness for C10 at a troop with health 5 hit for 8, a base at health 10
hit for 4, and a live hero at health 100 hit for 4. -/
theorem troop_health_unclamped_witness :
    ((Troop.mk 5 true).takeDamage 8).troop.health = (5 : ℚ) - (jsRound 8 : ℚ) ∧
    (((Troop.mk 5 true).takeDamage 8).destroyFired = true ↔
        (5 : ℚ) - (jsRound 8 : ℚ) ≤ 0) ∧
    (((Troop.mk 5 true).takeDamage 8).awardGoldFired = true ↔
        ((5 : ℚ) - (jsRound 8 : ℚ) ≤ 0 ∧ (Troop.mk 5 true).isEnemy = true)) ∧
    (((Base.mk 10 false).takeDamage 4).1.health = max 0 ((10 : ℚ) - (jsRound 4 : ℚ))) ∧
    (((Hero.mk false 0 15 1 100 true).takeDamage 4).health
        = max 0 ((100 : ℚ) - (jsRound 4 : ℚ))) ∧
    ((Troop.takeDamage ⟨5, true⟩ 8).troop.health = -3 ∧
      (Troop.takeDamage ⟨5, true⟩ 8).destroyFired = true ∧
      (Troop.takeDamage ⟨5, true⟩ 8).awardGoldFired = true) :=
  troop_health_unclamped (Troop.mk 5 true) 8 (Base.mk 10 false)
    (Hero.mk false 0 15 1 100 true) 4 (by decide) (by decide) (by decide)

/-- Claim C7: for every attacker/target pair of troop categories the code's
`DAMAGE_MULTIPLIERS` table equals the table the spec declares, and the attack
damage applied is `round(attackDamage × multiplier)` (the truthiness guard in
`Troop.calculateDamage` always passes because every entry is nonzero). -/
theorem damage_multiplier_table (attackDamage : ℚ) (a t : Category) :
    DAMAGE_MULTIPLIERS a t = specMatchupMultiplier a t ∧
    Troop.calculateDamage attackDamage a t =
      jsRound (attackDamage * DAMAGE_MULTIPLIERS a t) := by
  constructor
  · cases a <;> cases t <;> rfl
  · have hm : DAMAGE_MULTIPLIERS a t ≠ 0 := by
      cases a <;> cases t <;> norm_num [DAMAGE_MULTIPLIERS]
    simp only [Troop.calculateDamage, if_pos hm]

/-- Claim C8: the effective-attack-range check. A Ranged combatant is in range
exactly when the horizontal distance is ≤ `attackRange` (vertical offset
ignored); a melee combatant (Light or Heavy) is in range exactly when the
horizontal distance is ≤ `attackRange` AND the vertical distance is
≤ `troopHeight × verticalAttackFactor`. -/
theorem isTargetInAttackRange_spec (category : Category)
    (attackRange troopHeight vf selfX selfY targetX targetY : ℚ) :
    (category = Category.Ranged →
      (Troop.isTargetInAttackRange category attackRange troopHeight (some vf)
          selfX selfY targetX targetY = true ↔
        |selfX - targetX| ≤ attackRange)) ∧
    (category ≠ Category.Ranged →
      (Troop.isTargetInAttackRange category attackRange troopHeight (some vf)
          selfX selfY targetX targetY = true ↔
        (|selfX - targetX| ≤ attackRange ∧ |selfY - targetY| ≤ troopHeight * vf))) := by
  constructor
  · intro hr
    unfold Troop.isTargetInAttackRange
    rw [if_pos hr]
    by_cases hhd : |selfX - targetX| > attackRange
    · rw [if_pos hhd]
      simp [not_le.mpr hhd]
    · rw [if_neg hhd]
      simp [not_lt.mp hhd]
  · intro hr
    unfold Troop.isTargetInAttackRange
    rw [if_neg hr]
    by_cases hhd : |selfX - targetX| > attackRange
    · rw [if_pos hhd]
      simp only [Bool.false_eq_true, false_iff]
      rintro ⟨hle, -⟩
      exact absurd hle (not_le.mpr hhd)
    · rw [if_neg hhd]
      simp [Option.getD, not_lt.mp hhd]

/-- Witness for C8: a melee (Light) troop with attack range 50 and height 40,
vertical factor 1/2, against a target at horizontal distance 30 and vertical
distance 10. -/
theorem isTargetInAttackRange_spec_witness :
    (Category.Light = Category.Ranged →
      (Troop.isTargetInAttackRange Category.Light 50 40 (some (1/2))
          100 200 130 210 = true ↔ |(100:ℚ) - 130| ≤ 50)) ∧
    (Category.Light ≠ Category.Ranged →
      (Troop.isTargetInAttackRange Category.Light 50 40 (some (1/2))
          100 200 130 210 = true ↔
        (|(100:ℚ) - 130| ≤ 50 ∧ |(200:ℚ) - 210| ≤ 40 * (1/2)))) :=
  isTargetInAttackRange_spec Category.Light 50 40 (1/2) 100 200 130 210

/-- One gold step keeps the balance non-negative (given a non-negative
resource multiplier and a non-negative added amount) and never touches the
resource multiplier. -/
theorem applyGoldOp_preserves (gm : GameManager) (op : GoldOp)
    (hg : 0 ≤ gm.gold) (hrm : 0 ≤ gm.resourceMultiplier)
    (hop : ∀ a s, op = GoldOp.add a s → 0 ≤ a) :
    0 ≤ (gm.applyGoldOp op).gold ∧
      (gm.applyGoldOp op).resourceMultiplier = gm.resourceMultiplier := by
  cases op with
  | spend amount =>
    simp only [GameManager.applyGoldOp, GameManager.spendGold]
    split
    · next hge => exact ⟨sub_nonneg.mpr hge, rfl⟩
    · exact ⟨hg, rfl⟩
  | add amount source =>
    have hamt : 0 ≤ amount := hop amount source rfl
    simp only [GameManager.applyGoldOp, GameManager.addGold]
    refine ⟨add_nonneg hg ?_, by trivial⟩
    split
    · rw [ratFloor_eq_intFloor]
      exact_mod_cast Int.floor_nonneg.mpr (mul_nonneg hamt hrm)
    · exact hamt

/-- Every history of spend/add calls keeps the gold balance non-negative,
provided every added amount is non-negative. -/
theorem applyGoldOps_nonneg (gm : GameManager) (ops : List GoldOp)
    (hg : 0 ≤ gm.gold) (hrm : 0 ≤ gm.resourceMultiplier)
    (hops : ∀ op ∈ ops, ∀ a s, op = GoldOp.add a s → 0 ≤ a) :
    0 ≤ (gm.applyGoldOps ops).gold := by
  induction ops generalizing gm with
  | nil => exact hg
  | cons op rest ih =>
    have h1 := applyGoldOp_preserves gm op hg hrm (hops op (List.mem_cons_self op rest))
    have hstep : gm.applyGoldOps (op :: rest) = (gm.applyGoldOp op).applyGoldOps rest := rfl
    rw [hstep]
    exact ih (gm.applyGoldOp op) h1.1 (h1.2 ▸ hrm)
      (fun o ho => hops o (List.mem_cons_of_mem op ho))

/-- Claim C4: `spendGold` is atomic — with `gold < amount` it returns failure
and leaves gold unchanged; with `gold ≥ amount` it returns success and
decreases gold by exactly `amount` — and for every sequence of spend and add
calls (each added amount being non-negative, with a non-negative difficulty
resource multiplier) the balance never becomes negative. -/
theorem spendGold_atomic_and_nonneg (gm : GameManager) (amount : ℚ)
    (ops : List GoldOp) (hg : 0 ≤ gm.gold) (hrm : 0 ≤ gm.resourceMultiplier)
    (hops : ∀ op ∈ ops, ∀ a s, op = GoldOp.add a s → 0 ≤ a) :
    (gm.gold < amount → gm.spendGold amount = (gm, false)) ∧
    (amount ≤ gm.gold →
      gm.spendGold amount = ({ gm with gold := gm.gold - amount }, true)) ∧
    0 ≤ (gm.applyGoldOps ops).gold := by
  refine ⟨?_, ?_, applyGoldOps_nonneg gm ops hg hrm hops⟩
  · intro hlt
    simp only [GameManager.spendGold, if_neg (not_le.mpr hlt)]
  · intro hle
    simp only [GameManager.spendGold, if_pos hle]

/-- Witness for C4: gold 100, multiplier 1, spending 30 then adding 5. -/
theorem spendGold_atomic_and_nonneg_witness :
    ((GameManager.mk 100 1).gold < 30 →
      (GameManager.mk 100 1).spendGold 30 = (GameManager.mk 100 1, false)) ∧
    ((30:ℚ) ≤ (GameManager.mk 100 1).gold →
      (GameManager.mk 100 1).spendGold 30 =
        ({ GameManager.mk 100 1 with gold := (GameManager.mk 100 1).gold - 30 }, true)) ∧
    0 ≤ ((GameManager.mk 100 1).applyGoldOps
        [GoldOp.spend 30, GoldOp.add 5 GoldSource.other]).gold :=
  spendGold_atomic_and_nonneg (GameManager.mk 100 1) 30
    [GoldOp.spend 30, GoldOp.add 5 GoldSource.other] (by decide) (by decide)
    (by
      intro op hop a s heq
      subst heq
      simp only [List.mem_cons, List.not_mem_nil, or_false] at hop
      rcases hop with h | h
      · exact absurd h (by simp)
      · rw [GoldOp.add.injEq] at h
        rw [h.1]
        decide)

/-- Claim C5 (code behaviour at the failing input): the 10,000 ms age branch
of `cleanupArrows` is dead code. The scene tracks sprites, and a tracked
sprite carries no `creationTime` (see `Arrow.registeredSprite`), so the age
comparison is `NaN > 10000 = false` and never removes an arrow: an active,
in-bounds sprite registered at time 0 is still kept by the cleanup running at
ANY later tick — in particular at `now = 20000`, when the claim says an arrow
20 s old must already be destroyed. Only the out-of-bounds branch removes
arrows (second conjunct; the code's own comment at GameScene.js line 301,
"Check if arrow has existed for too long (10 seconds)", documents the
intended age check). -/
theorem cleanupArrows_age_check_dead :
    (∀ now : ℤ, GameScene.cleanupArrows (WorldBounds.mk 800 600) now
        [Arrow.registeredSprite 100 100] = [Arrow.registeredSprite 100 100]) ∧
    GameScene.cleanupArrows (WorldBounds.mk 800 600) 20000
        [Arrow.registeredSprite 900 100] = [] := by
  constructor
  · intro now
    have hkeep : GameScene.cleanupKeep (WorldBounds.mk 800 600) now
        (Arrow.registeredSprite 100 100) = true := by
      unfold GameScene.cleanupKeep Arrow.registeredSprite
      rw [if_neg (by norm_num), if_neg (by push_neg; norm_num)]
    unfold GameScene.cleanupArrows
    rw [if_neg (by simp)]
    simp [List.filter_cons, hkeep]
  · have hdrop : GameScene.cleanupKeep (WorldBounds.mk 800 600) 20000
        (Arrow.registeredSprite 900 100) = false := by
      unfold GameScene.cleanupKeep Arrow.registeredSprite
      rw [if_neg (by norm_num), if_pos (by norm_num)]
    unfold GameScene.cleanupArrows
    rw [if_neg (by simp)]
    simp [List.filter_cons, hdrop]

end StickArcher
